import Mathlib

/-!
Shallow embedding of `src/fabrication.py` (class `Fabrication` of a KiCad
fabrication plugin) and proofs about its rotation correction, layer plot
plan, placement projection and CPL row emission.

Conventions of the embedding:
* Python floats carrying angles and coordinates are modelled as `ℚ`; the
  arithmetic the source performs on them (`+`, `-`, `%` with positive
  divisor, division by 10^6) is exact on the values involved.
* Python's `%` on a positive divisor is `pymod` below
  (`a - b * ⌊a / b⌋`, result in `[0, b)`).
* Python's `re.search` is an external library call; it is modelled as an
  explicit parameter `reSearch : String → String → Bool` (pattern, text),
  so theorems hold for every regex semantics.
* KiCad layer identifiers (`pcbnew` constants, KiCad 6/7 numbering) are
  embedded as the numerals the plugin's comparisons rely on.
-/

namespace Fabrication

/-- Python's `%` operator for a positive rational divisor: the remainder
`a - b * ⌊a / b⌋`, which lies in `[0, b)` when `0 < b`. -/
def pymod (a b : ℚ) : ℚ := a - b * ⌊a / b⌋

/-- KiCad front copper layer id (`pcbnew.F_Cu`). -/
def F_Cu : Nat := 0

/-- KiCad back copper layer id (`pcbnew.B_Cu`); inner copper layers are
`1 .. 30`, so every copper layer id is `≤ B_Cu`. -/
def B_Cu : Nat := 31

/-- KiCad back paste layer id (`pcbnew.B_Paste`). -/
def B_Paste : Nat := 34

/-- KiCad front paste layer id (`pcbnew.F_Paste`). -/
def F_Paste : Nat := 35

/-- KiCad back silkscreen layer id (`pcbnew.B_SilkS`). -/
def B_SilkS : Nat := 36

/-- KiCad front silkscreen layer id (`pcbnew.F_SilkS`). -/
def F_SilkS : Nat := 37

/-- KiCad back mask layer id (`pcbnew.B_Mask`). -/
def B_Mask : Nat := 38

/-- KiCad front mask layer id (`pcbnew.F_Mask`). -/
def F_Mask : Nat := 39

/-- KiCad comments/user layer id (`pcbnew.Cmts_User`), used for V-score. -/
def Cmts_User : Nat := 41

/-- KiCad board outline layer id (`pcbnew.Edge_Cuts`). -/
def Edge_Cuts : Nat := 44

/-- A point in board-native length units (KiCad internal units). -/
structure Point where
  x : ℚ
  y : ℚ
deriving DecidableEq

/-- An axis-aligned bounding box in board-native units. -/
structure Rect where
  left : ℚ
  top : ℚ
  right : ℚ
  bottom : ℚ
deriving DecidableEq

/-- Center of a bounding box (the external engine's `BOX2I.GetCenter`). -/
def rectCenter (r : Rect) : Point :=
  ⟨(r.left + r.right) / 2, (r.top + r.bottom) / 2⟩

/-- Read-only view of a placed footprint, holding exactly the engine data
`fabrication.py` reads: `GetReference()`, `GetValue()`,
`GetFPID().GetLibItemName()`, `GetOrientation().AsDegrees()`, `GetLayer()`
(`0` = top/`F_Cu`), `GetPosition()`, `GetBoundingBox(False, False)`, and
the helper predicates `get_smd` / `get_exclude_from_pos` (helpers module,
not under `src/`, modelled from the spec as per-footprint flags:
is-surface-mount and excluded-from-placement). -/
structure Footprint where
  reference : String
  value : String
  packageName : String
  orientationDegrees : ℚ
  layer : Nat
  position : Point
  bbox : Rect
  smd : Bool
  excludeFromPos : Bool

/-- The external engine's `pcbnew.ToMM`: converts board-native units
(nanometres) to millimetres. -/
def ToMM (v : ℚ) : ℚ := v / 1000000

/-- Lines 70-80 of `fix_rotation`: the raw orientation in degrees, mirrored
by `(180 - rotation) % 360` when the footprint is not on layer 0 (top). -/
def mirroredRotation (fp : Footprint) : ℚ :=
  if fp.layer ≠ 0 then pymod (180 - fp.orientationDegrees) 360
  else fp.orientationDegrees

/-- `Fabrication.rotate` (lines 92-112): adds the correction on the top
layer and subtracts it on the bottom layer, reducing `% 360`. The
informational log emission is omitted (no observable value). -/
def rotate (fp : Footprint) (rotation : ℚ) (correction : Int) : ℚ :=
  if fp.layer = 0 then pymod (rotation + correction) 360
  else pymod (rotation - correction) 360

/-- `Fabrication.fix_rotation` (lines 68-90): mirror bottom-side angles,
then scan the correction table first against the footprint value, then
against the package name; the first match (if any) is applied via
`rotate`, otherwise the mirrored rotation is returned unchanged.
`reSearch` stands for Python's `re.search` as a Boolean test. -/
def fixRotation (reSearch : String → String → Bool)
    (corrections : List (String × Int)) (fp : Footprint) : ℚ :=
  let rotation := mirroredRotation fp
  match corrections.find? (fun rc => reSearch rc.1 fp.value) with
  | some rc => rotate fp rotation rc.2
  | none =>
    match corrections.find? (fun rc => reSearch rc.1 fp.packageName) with
    | some rc => rotate fp rotation rc.2
    | none => rotation

/-- `Fabrication.get_position` (lines 114-119): the native anchor for a
surface-mount footprint, else the bounding-box center. -/
def get_position (fp : Footprint) : Point :=
  if fp.smd then fp.position else rectCenter fp.bbox

/-- Lines 284 and 290-291 of `generate_cpl`: subtract the auxiliary
origin, convert to millimetres, and negate the Y coordinate. -/
def projectedPosition (fp : Footprint) (auxOrigin : Point) : ℚ × ℚ :=
  (ToMM ((get_position fp).x - auxOrigin.x),
   ToMM ((get_position fp).y - auxOrigin.y) * (-1))

/-- One entry of `read_pos_parts()`: the tuple fields the CPL loop reads,
`part[0]` (reference), `part[1]` (value), `part[2]` (package) and
`part[4]` (supplier/LCSC id, empty string when missing i.e. falsy). -/
structure PosPart where
  reference : String
  value : String
  package : String
  lcsc : String

/-- One row written to the CPL file (after the header). -/
structure CplRow where
  designator : String
  val : String
  package : String
  midX : ℚ
  midY : ℚ
  rotation : ℚ
  layer : String

/-- Modelled from the spec: `get_footprint_by_ref` (helpers module, not
under `src/`) locates the zero or more footprints whose reference
designator equals the given reference. -/
def get_footprint_by_ref (board : List Footprint) (ref : String) : List Footprint :=
  board.filter fun fp => fp.reference == ref

/-- Body of the inner loop of `generate_cpl` (lines 272-295): skip a
footprint excluded from placement, skip a part with a falsy supplier id
when `add_without_lcsc` is off, otherwise emit the placement row. -/
def cplRowOf (reSearch : String → String → Bool) (corrections : List (String × Int))
    (auxOrigin : Point) (addWithoutLcsc : Bool) (part : PosPart)
    (fp : Footprint) : Option CplRow :=
  if fp.excludeFromPos then none
  else if !addWithoutLcsc && part.lcsc == "" then none
  else some
    { designator := part.reference
      val := part.value
      package := part.package
      midX := (projectedPosition fp auxOrigin).1
      midY := (projectedPosition fp auxOrigin).2
      rotation := fixRotation reSearch corrections fp
      layer := if fp.layer = 0 then "top" else "bottom" }

/-- The rows `generate_cpl` writes after the header: for every part of
`read_pos_parts()`, for every footprint found by reference, the surviving
placement rows in order. -/
def cplRows (reSearch : String → String → Bool) (corrections : List (String × Int))
    (board : List Footprint) (parts : List PosPart) (auxOrigin : Point)
    (addWithoutLcsc : Bool) : List CplRow :=
  parts.flatMap fun part =>
    (get_footprint_by_ref board part.reference).filterMap
      (cplRowOf reSearch corrections auxOrigin addWithoutLcsc part)

/-- Default of the `lcsc_bom_pos` setting (line 261-263:
`settings.get("gerber", {}).get("lcsc_bom_pos", True)`). -/
def lcscBomPosDefault : Bool := true

/-- The fatal error of the correction-table loader. -/
inductive ConfigurationError where
  | malformedPattern (pattern : String)
deriving DecidableEq

/-- Modelled from the spec: `parent.library.get_all_correction_data`
(library module, not under `src/`) loads the ordered correction table and
requires each pattern to compile as a regular expression; a malformed
pattern fails the whole load with a `ConfigurationError`. `validPattern`
stands for "compiles as a regex". -/
def get_all_correction_data (validPattern : String → Bool)
    (raw : List (String × Int)) : Except ConfigurationError (List (String × Int)) :=
  match raw.find? (fun rc => !validPattern rc.1) with
  | some rc => Except.error (ConfigurationError.malformedPattern rc.1)
  | none => Except.ok raw

/-- `Fabrication.generate_cpl` (lines 256-296) as a function from inputs
to either a fatal load error or the emitted row list: the correction
table is loaded (line 259) before the CPL file is opened (line 264), so
on a load failure no file content exists; `Except.ok` carries the rows
written after the header. -/
def generate_cpl (validPattern : String → Bool) (reSearch : String → String → Bool)
    (raw : List (String × Int)) (board : List Footprint) (parts : List PosPart)
    (auxOrigin : Point) (addWithoutLcsc : Bool) :
    Except ConfigurationError (List CplRow) :=
  match get_all_correction_data validPattern raw with
  | Except.error e => Except.error e
  | Except.ok corrections =>
      Except.ok (cplRows reSearch corrections board parts auxOrigin addWithoutLcsc)

/-- One entry of the gerber plot plan: export file name, KiCad layer id,
human label. -/
structure PlotLayer where
  name : String
  layerId : Nat
  label : String
deriving DecidableEq

/-- `plot_plan_top` (lines 179-184). -/
def plot_plan_top : List PlotLayer :=
  [⟨"CuTop", F_Cu, "Top layer"⟩,
   ⟨"SilkTop", F_SilkS, "Silk top"⟩,
   ⟨"MaskTop", F_Mask, "Mask top"⟩,
   ⟨"PasteTop", F_Paste, "Paste top"⟩]

/-- `plot_plan_bottom` (lines 185-192). -/
def plot_plan_bottom : List PlotLayer :=
  [⟨"CuBottom", B_Cu, "Bottom layer"⟩,
   ⟨"SilkBottom", B_SilkS, "Silk top"⟩,
   ⟨"MaskBottom", B_Mask, "Mask bottom"⟩,
   ⟨"PasteBottom", B_Paste, "Paste bottom"⟩,
   ⟨"EdgeCuts", Edge_Cuts, "Edges"⟩,
   ⟨"VScore", Cmts_User, "V score cut"⟩]

/-- One inner-copper plan entry (line 207): `(f"CuIn{layer}", layer,
f"Inner layer {layer}")`, with the copper layer index as layer id. -/
def innerPlotLayer (layer : Nat) : PlotLayer :=
  ⟨"CuIn" ++ toString layer, layer, "Inner layer " ++ toString layer⟩

/-- The `plot_plan` construction of `generate_geber` (lines 194-211):
single sided boards take the top sequence plus `plot_plan_bottom[-2:]`;
double sided boards take top plus bottom; more layers insert one inner
entry per copper index `1 .. layer_count - 2` (Python
`range(1, layer_count - 1)`) between them. -/
def plot_plan (layer_count : Nat) : List PlotLayer :=
  if layer_count = 1 then plot_plan_top ++ plot_plan_bottom.drop 4
  else if layer_count = 2 then plot_plan_top ++ plot_plan_bottom
  else plot_plan_top
    ++ (List.range' 1 (layer_count - 2)).map innerPlotLayer
    ++ plot_plan_bottom

/-- The per-entry rendering flag set in the plot loop (lines 213-217):
`SetSkipPlotNPTH_Pads(layer_info[1] <= B_Cu)`. -/
def skipPlotNPTH (entry : PlotLayer) : Bool :=
  entry.layerId ≤ B_Cu

/-! ## Helper lemmas -/

lemma pymod_nonneg (a b : ℚ) (hb : 0 < b) : 0 ≤ pymod a b := by
  unfold pymod
  have h1 : ((⌊a / b⌋ : ℚ)) ≤ a / b := Int.floor_le _
  have h2 : b * ((⌊a / b⌋ : ℚ)) ≤ b * (a / b) :=
    mul_le_mul_of_nonneg_left h1 (le_of_lt hb)
  rw [mul_div_cancel₀ _ (ne_of_gt hb)] at h2
  linarith

lemma pymod_lt (a b : ℚ) (hb : 0 < b) : pymod a b < b := by
  unfold pymod
  have h1 : a / b < ((⌊a / b⌋ : ℚ)) + 1 := Int.lt_floor_add_one _
  have h2 : b * (a / b) < b * (((⌊a / b⌋ : ℚ)) + 1) :=
    mul_lt_mul_of_pos_left h1 hb
  rw [mul_div_cancel₀ _ (ne_of_gt hb)] at h2
  nlinarith

lemma pymod_eq_of (a b r : ℚ) (k : ℤ) (h : a = b * k + r) (h0 : 0 ≤ r) (h1 : r < b) :
    pymod a b = r := by
  have hb : 0 < b := lt_of_le_of_lt h0 h1
  have hf : ⌊a / b⌋ = k := by
    rw [Int.floor_eq_iff]
    constructor
    · rw [h, le_div_iff₀ hb]
      nlinarith
    · rw [h, div_lt_iff₀ hb]
      nlinarith
  unfold pymod
  rw [hf, h]
  ring

lemma find?_eq_get_of_take {α : Type} (p : α → Bool) (l : List α) (i : Nat)
    (hi : i < l.length) (hpre : ((l.take i).all fun a => !p a) = true)
    (hp : p (l.get ⟨i, hi⟩) = true) : l.find? p = some (l.get ⟨i, hi⟩) := by
  induction l generalizing i with
  | nil => simp at hi
  | cons a l ih =>
    cases i with
    | zero =>
      simp only [List.get] at hp
      simp [List.find?_cons_of_pos _ hp]
    | succ j =>
      simp only [List.take_succ_cons, List.all_cons, Bool.and_eq_true,
        Bool.not_eq_true'] at hpre
      simp only [List.length_cons, Nat.succ_lt_succ_iff] at hi
      simp only [List.get] at hp ⊢
      rw [List.find?_cons_of_neg _ (by simp [hpre.1])]
      exact ih j hi hpre.2 hp

lemma mirroredRotation_range (fp : Footprint) (h0 : 0 ≤ fp.orientationDegrees)
    (h1 : fp.orientationDegrees < 360) :
    0 ≤ mirroredRotation fp ∧ mirroredRotation fp < 360 := by
  unfold mirroredRotation
  split
  · exact ⟨pymod_nonneg _ _ (by norm_num), pymod_lt _ _ (by norm_num)⟩
  · exact ⟨h0, h1⟩

lemma rotate_range (fp : Footprint) (rotation : ℚ) (correction : Int) :
    0 ≤ rotate fp rotation correction ∧ rotate fp rotation correction < 360 := by
  unfold rotate
  split
  · exact ⟨pymod_nonneg _ _ (by norm_num), pymod_lt _ _ (by norm_num)⟩
  · exact ⟨pymod_nonneg _ _ (by norm_num), pymod_lt _ _ (by norm_num)⟩

/-! ## Claim theorems -/

/-- C5: for every raw rotation in `[0, 360)`, every layer side, every value
and package-name string, and every correction table, the resolved rotation
returned by `fixRotation` lies in `[0, 360)`. -/
theorem c5_resolved_rotation_range (reSearch : String → String → Bool)
    (corrections : List (String × Int)) (fp : Footprint)
    (h0 : 0 ≤ fp.orientationDegrees) (h1 : fp.orientationDegrees < 360) :
    0 ≤ fixRotation reSearch corrections fp ∧
      fixRotation reSearch corrections fp < 360 := by
  have hmr := mirroredRotation_range fp h0 h1
  simp only [fixRotation]
  cases hv : corrections.find? (fun rc => reSearch rc.1 fp.value) with
  | some rc => exact rotate_range fp (mirroredRotation fp) rc.2
  | none =>
    cases hp : corrections.find? (fun rc => reSearch rc.1 fp.packageName) with
    | some rc => exact rotate_range fp (mirroredRotation fp) rc.2
    | none => exact hmr

/-- C5 witness: a concrete top-side footprint with rotation 10, empty
correction table: the resolved rotation is inside `[0, 360)`. -/
theorem c5_witness :
    0 ≤ fixRotation (fun _ _ => false) []
        ⟨"R1", "10k", "SOT-23", 10, 0, ⟨0, 0⟩, ⟨0, 0, 0, 0⟩, true, false⟩ ∧
      fixRotation (fun _ _ => false) []
        ⟨"R1", "10k", "SOT-23", 10, 0, ⟨0, 0⟩, ⟨0, 0, 0, 0⟩, true, false⟩ < 360 :=
  c5_resolved_rotation_range _ _ _ (by norm_num) (by norm_num)

/-- An example top-layer footprint (`GetLayer() = 0`). -/
def fpTopExample : Footprint :=
  ⟨"T1", "", "", 0, 0, ⟨0, 0⟩, ⟨0, 0, 0, 0⟩, true, false⟩

/-- An example bottom-layer footprint (`GetLayer() = B_Cu = 31`). -/
def fpBottomExample : Footprint :=
  ⟨"B1", "", "", 0, 31, ⟨0, 0⟩, ⟨0, 0, 0, 0⟩, true, false⟩

/-- C6: applying a matched correction is side-sensitive — on the top layer
`rotate` computes `(rotation + d) % 360`, on the bottom layer
`(rotation - d) % 360`; with rotation 0 and d = 90 this yields 90 on top
and 270 on bottom; and composing a top application with a bottom
application of the same offset is not in general the identity. -/
theorem c6_rotate_side_sensitive :
    (∀ (r : ℚ) (d : Int), rotate fpTopExample r d = pymod (r + d) 360) ∧
    (∀ (r : ℚ) (d : Int), rotate fpBottomExample r d = pymod (r - d) 360) ∧
    rotate fpTopExample 0 90 = 90 ∧
    rotate fpBottomExample 0 90 = 270 ∧
    ¬ ∀ (r : ℚ) (d : Int), rotate fpBottomExample (rotate fpTopExample r d) d = r := by
  refine ⟨?_, ?_, ?_, ?_, ?_⟩
  · intro r d
    simp [rotate, fpTopExample]
  · intro r d
    simp [rotate, fpBottomExample]
  · show pymod (0 + ((90 : Int) : ℚ)) 360 = 90
    apply pymod_eq_of _ _ _ 0 <;> norm_num
  · show pymod (0 - ((90 : Int) : ℚ)) 360 = 270
    apply pymod_eq_of _ _ _ (-1) <;> norm_num
  · intro h
    have h360 := h 360 90
    have ht : rotate fpTopExample 360 90 = 90 := by
      show pymod (360 + ((90 : Int) : ℚ)) 360 = 90
      apply pymod_eq_of _ _ _ 1 <;> norm_num
    rw [ht] at h360
    have hb : rotate fpBottomExample 90 90 = 0 := by
      show pymod (90 - ((90 : Int) : ℚ)) 360 = 0
      apply pymod_eq_of _ _ _ 0 <;> norm_num
    rw [hb] at h360
    norm_num at h360

/-- C4: a bottom-side footprint with raw rotation 45 whose package name
(but not value) matches the single correction rule `("SOT-23", 180)`
resolves to `((180 - 45) - 180) % 360 = 315`. -/
theorem c4_end_to_end_rotation (reSearch : String → String → Bool) (fp : Footprint)
    (hlayer : fp.layer ≠ 0) (hrot : fp.orientationDegrees = 45)
    (hval : reSearch "SOT-23" fp.value = false)
    (hpkg : reSearch "SOT-23" fp.packageName = true) :
    fixRotation reSearch [("SOT-23", (180 : Int))] fp = 315 := by
  have hmr : mirroredRotation fp = 135 := by
    unfold mirroredRotation
    rw [if_pos hlayer, hrot]
    apply pymod_eq_of _ _ _ 0 <;> norm_num
  have hv : ([(("SOT-23", (180 : Int)))].find? fun rc => reSearch rc.1 fp.value)
      = none := by
    rw [List.find?_cons_of_neg _ (by simp [hval]), List.find?_nil]
  have hp : ([(("SOT-23", (180 : Int)))].find? fun rc => reSearch rc.1 fp.packageName)
      = some ("SOT-23", 180) :=
    List.find?_cons_of_pos _ (by simp [hpkg])
  simp only [fixRotation]
  rw [hv, hp]
  simp only [rotate]
  rw [if_neg hlayer, hmr]
  apply pymod_eq_of _ _ _ (-1) <;> push_cast <;> norm_num

/-- C4 witness: concrete instantiation with an equality matcher, a
bottom-layer footprint (layer 31) of value `"10k"` and package
`"SOT-23"`, rotation 45: the resolved rotation is 315. -/
theorem c4_witness :
    fixRotation (fun pat s => s == pat) [("SOT-23", (180 : Int))]
      ⟨"Q1", "10k", "SOT-23", 45, 31, ⟨0, 0⟩, ⟨0, 0, 0, 0⟩, true, false⟩ = 315 :=
  c4_end_to_end_rotation _ _ (by decide) (by norm_num) (by decide) (by decide)

/-- C3: rule lookup scans the table in declaration order against the value
field first — if the rule at position `i` matches the value and no earlier
rule does, exactly its offset is applied — and only when no rule matches
the value is the table rescanned (again first match wins) against the
package name; in both cases the result is a single `rotate` application of
that one rule's offset. -/
theorem c3_lookup_order (reSearch : String → String → Bool)
    (rules : List (String × Int)) (fp : Footprint) (i : Nat)
    (hi : i < rules.length) :
    ((((rules.take i).all fun rc => !reSearch rc.1 fp.value) = true →
      reSearch (rules.get ⟨i, hi⟩).1 fp.value = true →
      fixRotation reSearch rules fp
        = rotate fp (mirroredRotation fp) (rules.get ⟨i, hi⟩).2)) ∧
    (((rules.all fun rc => !reSearch rc.1 fp.value) = true →
      ((rules.take i).all fun rc => !reSearch rc.1 fp.packageName) = true →
      reSearch (rules.get ⟨i, hi⟩).1 fp.packageName = true →
      fixRotation reSearch rules fp
        = rotate fp (mirroredRotation fp) (rules.get ⟨i, hi⟩).2)) := by
  constructor
  · intro hpre hp
    have hfind := find?_eq_get_of_take (fun rc => reSearch rc.1 fp.value)
      rules i hi hpre hp
    simp only [fixRotation]
    rw [hfind]
  · intro hall hpre hp
    have hvnone : rules.find? (fun rc => reSearch rc.1 fp.value) = none := by
      rw [List.find?_eq_none]
      intro x hx
      rw [List.all_eq_true] at hall
      simpa using hall x hx
    have hfind := find?_eq_get_of_take (fun rc => reSearch rc.1 fp.packageName)
      rules i hi hpre hp
    simp only [fixRotation]
    rw [hvnone, hfind]

/-- C3 witness: with an equality matcher and rules `[("A",10),("B",20)]`,
a footprint of value `"B"` skips the first rule and takes the second
rule's offset 20 (applied once through `rotate`). -/
theorem c3_witness :
    fixRotation (fun pat s => s == pat) [("A", (10 : Int)), ("B", 20)]
        ⟨"R1", "B", "P", 0, 0, ⟨0, 0⟩, ⟨0, 0, 0, 0⟩, true, false⟩
      = rotate ⟨"R1", "B", "P", 0, 0, ⟨0, 0⟩, ⟨0, 0, 0, 0⟩, true, false⟩
          (mirroredRotation ⟨"R1", "B", "P", 0, 0, ⟨0, 0⟩, ⟨0, 0, 0, 0⟩, true, false⟩)
          20 :=
  (c3_lookup_order (fun pat s => s == pat) [("A", (10 : Int)), ("B", 20)]
    ⟨"R1", "B", "P", 0, 0, ⟨0, 0⟩, ⟨0, 0, 0, 0⟩, true, false⟩ 1 (by decide)).1
    (by decide) (by decide)

/-- C10: a top-side footprint matched by no correction rule (neither on
value nor on package name) gets its raw orientation back completely
unchanged — no mod-360 normalization — and the emitted placement row
carries exactly that raw orientation. -/
theorem c10_top_unmatched_identity (reSearch : String → String → Bool)
    (corrections : List (String × Int)) (fp : Footprint) (part : PosPart)
    (auxOrigin : Point) (htop : fp.layer = 0)
    (hnone : ∀ rc ∈ corrections,
      reSearch rc.1 fp.value = false ∧ reSearch rc.1 fp.packageName = false)
    (href : part.reference = fp.reference) (hexc : fp.excludeFromPos = false) :
    fixRotation reSearch corrections fp = fp.orientationDegrees ∧
    (cplRows reSearch corrections [fp] [part] auxOrigin true).map CplRow.rotation
      = [fp.orientationDegrees] := by
  have hv : corrections.find? (fun rc => reSearch rc.1 fp.value) = none := by
    rw [List.find?_eq_none]
    intro x hx
    simp [(hnone x hx).1]
  have hp : corrections.find? (fun rc => reSearch rc.1 fp.packageName) = none := by
    rw [List.find?_eq_none]
    intro x hx
    simp [(hnone x hx).2]
  have hfix : fixRotation reSearch corrections fp = fp.orientationDegrees := by
    simp only [fixRotation]
    rw [hv, hp]
    simp only [mirroredRotation]
    rw [if_neg (by simp [htop])]
  refine ⟨hfix, ?_⟩
  simp [cplRows, get_footprint_by_ref, cplRowOf, href, hexc, hfix]

/-- C10 witness: a top-side footprint with raw orientation `-30` (outside
`[0, 360)`) and a never-matching table: the resolver returns `-30`
unchanged, the placement row carries `-30`, and `-30` is negative, so the
row rotation is unnormalized. -/
theorem c10_witness :
    fixRotation (fun _ _ => false) [("X", (90 : Int))]
        ⟨"U1", "V", "P", -30, 0, ⟨0, 0⟩, ⟨0, 0, 0, 0⟩, true, false⟩ = -30 ∧
    (cplRows (fun _ _ => false) [("X", (90 : Int))]
        [⟨"U1", "V", "P", -30, 0, ⟨0, 0⟩, ⟨0, 0, 0, 0⟩, true, false⟩]
        [⟨"U1", "V", "P", ""⟩] ⟨0, 0⟩ true).map CplRow.rotation = [-30] ∧
    ((-30 : ℚ) < 0) :=
  ⟨(c10_top_unmatched_identity (fun _ _ => false) [("X", (90 : Int))]
      ⟨"U1", "V", "P", -30, 0, ⟨0, 0⟩, ⟨0, 0, 0, 0⟩, true, false⟩
      ⟨"U1", "V", "P", ""⟩ ⟨0, 0⟩ rfl (by simp) rfl rfl).1,
   (c10_top_unmatched_identity (fun _ _ => false) [("X", (90 : Int))]
      ⟨"U1", "V", "P", -30, 0, ⟨0, 0⟩, ⟨0, 0, 0, 0⟩, true, false⟩
      ⟨"U1", "V", "P", ""⟩ ⟨0, 0⟩ rfl (by simp) rfl rfl).2,
   by norm_num⟩

/-- C1: if any raw correction rule's pattern fails to compile, the CPL
export returns the `ConfigurationError` raised by the loader and produces
no row output at all: the loader runs (line 259) before the CPL file is
opened (line 264), so no file — not even a partial one — exists. -/
theorem c1_malformed_pattern_aborts_before_write (validPattern : String → Bool)
    (reSearch : String → String → Bool) (raw : List (String × Int))
    (board : List Footprint) (parts : List PosPart) (auxOrigin : Point)
    (addWithoutLcsc : Bool)
    (hbad : ∃ rc ∈ raw, validPattern rc.1 = false) :
    ∃ p, generate_cpl validPattern reSearch raw board parts auxOrigin addWithoutLcsc
      = Except.error (ConfigurationError.malformedPattern p) := by
  obtain ⟨rc, hmem, hrc⟩ := hbad
  cases hfind : raw.find? (fun rc => !validPattern rc.1) with
  | none =>
    rw [List.find?_eq_none] at hfind
    have := hfind rc hmem
    simp [hrc] at this
  | some rc' =>
    refine ⟨rc'.1, ?_⟩
    simp only [generate_cpl, get_all_correction_data]
    rw [hfind]

/-- C1 witness: a correction table whose single pattern `"("` does not
compile: the CPL export ends in a `ConfigurationError` and emits no rows. -/
theorem c1_witness :
    ∃ p, generate_cpl (fun pat => !(pat == "(")) (fun _ _ => false)
        [("(", (90 : Int))] [] [] ⟨0, 0⟩ true
      = Except.error (ConfigurationError.malformedPattern p) :=
  c1_malformed_pattern_aborts_before_write _ _ _ _ _ _ _
    ⟨("(", (90 : Int)), by simp, by decide⟩

/-- C7: the plot plan depends only on the copper layer count: one layer
gives 6 entries, two give 10, and `n > 2` gives the top sequence, one
inner entry per copper index `1 .. n-2` in ascending order with layer-id
equal to the index, then the full bottom sequence — `n + 8` entries whose
layer ids are exactly the listed sequence. -/
theorem c7_plot_plan_structure (n : Nat) (hn : 2 < n) :
    (plot_plan 1).length = 6 ∧ (plot_plan 2).length = 10 ∧
    (plot_plan n).length = n + 8 ∧
    (plot_plan n).map PlotLayer.layerId
      = [F_Cu, F_SilkS, F_Mask, F_Paste] ++ List.range' 1 (n - 2)
        ++ [B_Cu, B_SilkS, B_Mask, B_Paste, Edge_Cuts, Cmts_User] := by
  have hplan : plot_plan n
      = plot_plan_top ++ (List.range' 1 (n - 2)).map innerPlotLayer
        ++ plot_plan_bottom := by
    unfold plot_plan
    rw [if_neg (by omega), if_neg (by omega)]
  refine ⟨rfl, rfl, ?_, ?_⟩
  · rw [hplan]
    simp [plot_plan_top, plot_plan_bottom]
    omega
  · rw [hplan]
    simp only [List.map_append, List.map_map]
    have hmid : (List.range' 1 (n - 2)).map (PlotLayer.layerId ∘ innerPlotLayer)
        = List.range' 1 (n - 2) := by
      simp [Function.comp_def, innerPlotLayer]
    rw [hmid]
    rfl

/-- C7 witness: a 4-layer board: 12 entries, layer ids
`[0, 37, 39, 35] ++ [1, 2] ++ [31, 36, 38, 34, 44, 41]`. -/
theorem c7_witness :
    (plot_plan 4).length = 4 + 8 ∧
    (plot_plan 4).map PlotLayer.layerId
      = [F_Cu, F_SilkS, F_Mask, F_Paste] ++ List.range' 1 (4 - 2)
        ++ [B_Cu, B_SilkS, B_Mask, B_Paste, Edge_Cuts, Cmts_User] :=
  ⟨(c7_plot_plan_structure 4 (by norm_num)).2.2.1,
   (c7_plot_plan_structure 4 (by norm_num)).2.2.2⟩

/-- C2 counterexample: in `plot_plan 2` the Bottom-Copper entry
(`"CuBottom"`, layer id `B_Cu`) sits at plan index 4, so the claim
predicts the flag sequence `[T, T, T, T, T, F, F, F, F, F]` (true at or
before index 4, false after); the code instead derives
`[T, F, F, F, T, F, F, F, F, F]`: the entries at indices 1-3 (top silk,
mask, paste) precede Bottom-Copper in plan order yet carry flag false. -/
theorem c2_counterexample :
    ((plot_plan 2).map PlotLayer.layerId).indexOf B_Cu = 4 ∧
    (plot_plan 2).map skipPlotNPTH
      = [true, false, false, false, true, false, false, false, false, false] ∧
    (plot_plan 2).map skipPlotNPTH
      ≠ [true, true, true, true, true, false, false, false, false, false] :=
  ⟨rfl, rfl, by decide⟩

/-- C2 amended: the derived skip-non-plated-holes flag is the layer-id
test `layerId ≤ B_Cu`: true exactly for the copper entries (Top-Copper,
the inner copper entries, Bottom-Copper) wherever they sit in plan order,
and false for every non-copper entry — including the top silk, mask and
paste entries that precede Bottom-Copper in plan order. (`n ≤ 33` keeps
every inner copper id `≤ B_Cu = 31`; KiCad itself caps copper layers at
32.) -/
theorem c2_amended_flag_is_copper_test (n : Nat) (hn : 2 < n) (hcap : n ≤ 33) :
    (plot_plan 1).map skipPlotNPTH
      = [true, false, false, false, false, false] ∧
    (plot_plan 2).map skipPlotNPTH
      = [true, false, false, false, true, false, false, false, false, false] ∧
    (plot_plan n).map skipPlotNPTH
      = [true, false, false, false] ++ List.replicate (n - 2) true
        ++ [true, false, false, false, false, false] := by
  have hplan : plot_plan n
      = plot_plan_top ++ (List.range' 1 (n - 2)).map innerPlotLayer
        ++ plot_plan_bottom := by
    unfold plot_plan
    rw [if_neg (by omega), if_neg (by omega)]
  refine ⟨rfl, rfl, ?_⟩
  rw [hplan]
  simp only [List.map_append, List.map_map]
  have hmid : (List.range' 1 (n - 2)).map (skipPlotNPTH ∘ innerPlotLayer)
      = List.replicate (n - 2) true := by
    rw [List.eq_replicate_iff]
    constructor
    · simp
    · intro b hb
      rw [List.mem_map] at hb
      obtain ⟨i, hi, hbi⟩ := hb
      rw [List.mem_range'_1] at hi
      rw [← hbi]
      simp only [Function.comp_apply, skipPlotNPTH, innerPlotLayer, B_Cu]
      simp only [decide_eq_true_eq]
      omega
  rw [hmid]
  rfl

/-- C2 amended witness: a 4-layer board: the flag sequence is
`[T, F, F, F] ++ [T, T] ++ [T, F, F, F, F, F]` — the two inner copper
entries and both copper faces are true, everything else false. -/
theorem c2_witness :
    (plot_plan 4).map skipPlotNPTH
      = [true, false, false, false] ++ List.replicate (4 - 2) true
        ++ [true, false, false, false, false, false] :=
  (c2_amended_flag_is_copper_test 4 (by norm_num) (by norm_num)).2.2

/-- C8: the projected placement coordinates are
`x = raw_x - origin.x` and `y = -(raw_y - origin.y)` (in millimetres,
with no rounding), where the reference point is the native anchor for a
surface-mount footprint and the bounding-box center otherwise; a
surface-mount footprint at raw (15, 20) mm with origin (10, 10) mm
projects to `(5, -10)`. -/
theorem c8_projection_formula (fp : Footprint) (origin : Point) :
    (projectedPosition fp origin).1
        = ToMM (if fp.smd then fp.position else rectCenter fp.bbox).x
          - ToMM origin.x ∧
    (projectedPosition fp origin).2
        = -(ToMM (if fp.smd then fp.position else rectCenter fp.bbox).y
            - ToMM origin.y) ∧
    projectedPosition
        ⟨"C1", "100n", "C0402", 0, 0, ⟨15000000, 20000000⟩, ⟨0, 0, 0, 0⟩,
          true, false⟩ ⟨10000000, 10000000⟩
      = (5, -10) := by
  refine ⟨?_, ?_, ?_⟩
  · simp only [projectedPosition, get_position, ToMM]
    ring
  · simp only [projectedPosition, get_position, ToMM]
    ring
  · simp only [projectedPosition, get_position, ToMM]
    norm_num

/-- Length of the surviving placement rows of one part over a footprint
list: zero when the part is gated out by a missing supplier id, else the
number of non-excluded footprints. -/
lemma cplRowOf_filterMap_length (reSearch : String → String → Bool)
    (corrections : List (String × Int)) (auxOrigin : Point)
    (addWithoutLcsc : Bool) (part : PosPart) (fps : List Footprint) :
    (fps.filterMap (cplRowOf reSearch corrections auxOrigin addWithoutLcsc part)).length
      = if !addWithoutLcsc && part.lcsc == "" then 0
        else (fps.filter fun fp => !fp.excludeFromPos).length := by
  induction fps with
  | nil => simp
  | cons fp fps ih =>
    simp only [List.filterMap_cons, List.filter_cons]
    by_cases he : fp.excludeFromPos = true
    · rw [cplRowOf, if_pos he]
      simp only [he, Bool.not_true, Bool.false_eq_true, if_false]
      exact ih
    · by_cases hg : (!addWithoutLcsc && part.lcsc == "") = true
      · rw [cplRowOf, if_neg he, if_pos hg]
        simp only [hg, if_true] at ih ⊢
        exact ih
      · rw [cplRowOf, if_neg he, if_neg hg]
        simp only [hg, Bool.false_eq_true, if_false] at ih ⊢
        simp only [List.length_cons, ih]
        rw [if_pos (by simp [he])]
        simp

/-- C9: placement export emits exactly one row per (part, matching
footprint) pair: for every part, every footprint matching its reference
and not flagged exclude-from-placement contributes one row, except that a
part with a falsy supplier id contributes no rows when the
`lcsc_bom_pos` flag (default true) is off. -/
theorem c9_row_count (reSearch : String → String → Bool)
    (corrections : List (String × Int)) (board : List Footprint)
    (parts : List PosPart) (auxOrigin : Point) (addWithoutLcsc : Bool) :
    lcscBomPosDefault = true ∧
    (cplRows reSearch corrections board parts auxOrigin addWithoutLcsc).length
      = (parts.map fun part =>
          if !addWithoutLcsc && part.lcsc == "" then 0
          else ((get_footprint_by_ref board part.reference).filter
            fun fp => !fp.excludeFromPos).length).sum := by
  refine ⟨rfl, ?_⟩
  unfold cplRows
  rw [List.length_flatMap]
  apply congrArg List.sum
  apply List.map_congr_left
  intro part _
  simp only [Function.comp_apply]
  exact cplRowOf_filterMap_length reSearch corrections auxOrigin addWithoutLcsc
    part (get_footprint_by_ref board part.reference)

end Fabrication
